import Mathlib

set_option maxRecDepth 40000

/-!
Verification of the (23,12) Golay-code codec in `golay_example.py`.

The Python class `GolayCode` holds two hard-coded 12-row bit matrices
(`generator_matrix`, `parity_check_matrix`), builds a syndrome lookup
table from all weight-1 and weight-2 error patterns, and exposes
`encode` (12 information bits to a 23-bit codeword, with range
validation) and `decode` (syndrome computation, table lookup, error
correction, returning the top 12 bits of the word together with an
error count, where -1 signals an uncorrectable word).

The definitions below are a shallow embedding of that code: Python
integers become `Nat`/`Int`, the `dict` becomes an association list
with replace-on-collision insertion (Python dict semantics), and the
`raise ValueError` in `encode` becomes `Except.error`.  Bit operations
(`&`, `|`, `^`, `<<`, `>>`) are the corresponding `Nat` operations;
`x & ((1 << 23) - 1)` on a possibly negative Python integer is the
mathematical `x mod 2^23`, which is how `decode` masks its input.
`bin(x).count('1')` for a nonnegative `x` is the number of set bits,
embedded as a fuel-driven binary digit sum.
-/

/-- The 12 rows of `self.generator_matrix`: row `i` is the 23-bit word
`0b<identity bit 11-i of 12><11 parity bits>`, written here with the
same binary digits as the source (underscores removed). -/
def generator_matrix : List Nat :=
  [0b10000000000010111100001,
   0b01000000000011011100010,
   0b00100000000011011110100,
   0b00010000000011001111000,
   0b00001000000010101110001,
   0b00000100000001011101001,
   0b00000010000010110101010,
   0b00000001000001101011010,
   0b00000000100011010011100,
   0b00000000010010100111100,
   0b00000000001001001111100,
   0b00000000000111110111010]

/-- The 12 rows of `self.parity_check_matrix` (note: twelve rows, even
though only rows 0..10 are ever read by `_calculate_syndrome`). -/
def parity_check_matrix : List Nat :=
  [0b10111100001000000000001,
   0b11011100010000000000010,
   0b11011110100000000000100,
   0b11001111000000000001000,
   0b10101110001000000010000,
   0b01011101001000000100000,
   0b10110101010000001000000,
   0b01101011010000010000000,
   0b11010011100000100000000,
   0b10100111100001000000000,
   0b01001111100010000000000,
   0b11110111010100000000000]

/-- Fuel-driven binary digit sum; with enough fuel this is the number
of set bits of `n`. -/
def popcountAux : Nat → Nat → Nat
  | 0, _ => 0
  | fuel + 1, n => if n = 0 then 0 else n % 2 + popcountAux fuel (n / 2)

/-- The Python idiom `bin(n).count('1')` for a nonnegative `n`: the
number of set bits of `n` (fuel `n` is enough, since `n ≥ log2 n + 1`
for `n ≥ 1`). -/
def popcount (n : Nat) : Nat := popcountAux n n

/-- `GolayCode._calculate_syndrome`: for `i` in `range(11)`, bit `i` of
the syndrome is `bin(received & parity_check_matrix[i]).count('1') % 2`,
accumulated with `syndrome |= parity << i`. -/
def calculate_syndrome (received : Nat) : Nat :=
  (List.range 11).foldl (fun syndrome i =>
    syndrome ||| ((popcount (received &&& parity_check_matrix.getD i 0) % 2) <<< i)) 0

/-- Insertion into a Python `dict` modelled as an association list:
assigning to an existing key replaces its value in place, a new key is
appended (Python dicts keep insertion order). -/
def dictInsert (t : List (Nat × Nat)) (k v : Nat) : List (Nat × Nat) :=
  if t.any (fun p => p.1 = k) then t.map (fun p => if p.1 = k then (k, v) else p)
  else t ++ [(k, v)]

/-- Python `table[k]` guarded by `k in table`: the value stored at key
`k`, if present. -/
def dictLookup (t : List (Nat × Nat)) (k : Nat) : Option Nat :=
  (t.find? (fun p => p.1 = k)).map (·.2)

/-- `GolayCode._build_syndrome_table`: insert `table[syndrome(1 << i)] = 1 << i`
for `i` in `range(23)`, then `table[syndrome((1 << i) | (1 << j))] = (1 << i) | (1 << j)`
for `i` in `range(23)` and `j` in `range(i + 1, 23)`. -/
def build_syndrome_table : List (Nat × Nat) :=
  let t1 := (List.range 23).foldl (fun t i =>
    dictInsert t (calculate_syndrome (1 <<< i)) (1 <<< i)) []
  (List.range 23).foldl (fun t i =>
    (List.range' (i + 1) (22 - i)).foldl (fun t j =>
      dictInsert t (calculate_syndrome ((1 <<< i) ||| (1 <<< j))) ((1 <<< i) ||| (1 <<< j))) t) t1

/-- `self.syndrome_table`, built once in `__init__`. -/
def syndrome_table : List (Nat × Nat) := build_syndrome_table

/-- The accumulation loop of `GolayCode.encode` on an already validated
(nonnegative) input: XOR together the generator rows selected by the
set bits of `data`, then mask to 23 bits. -/
def encode_loop (data : Nat) : Nat :=
  ((List.range 12).foldl (fun codeword i =>
    if (data >>> i) &&& 1 = 1 then codeword ^^^ generator_matrix.getD i 0
    else codeword) 0) &&& ((1 <<< 23) - 1)

/-- `GolayCode.encode`: raise `ValueError` when `data < 0 or data >= (1 << 12)`,
otherwise run the accumulation loop. -/
def encode (data : Int) : Except String Nat :=
  if data < 0 ∨ (2 ^ 12 : Int) ≤ data then
    Except.error "Data must be 12 bits (0-4095)"
  else
    Except.ok (encode_loop data.toNat)

/-- `GolayCode.decode`: mask the received word to 23 bits (`x & ((1 << 23) - 1)`
on a Python integer is `x mod 2^23`), compute the syndrome, and return
`(received >> 11, 0)` on syndrome zero, the corrected top 12 bits and the
popcount of the looked-up error pattern on a table hit, and
`(received >> 11, -1)` on a miss. -/
def decode (received : Int) : Nat × Int :=
  let r := (received % (2 ^ 23 : Int)).toNat
  let syndrome := calculate_syndrome r
  if syndrome = 0 then (r >>> 11, 0)
  else match dictLookup syndrome_table syndrome with
    | some error_pattern => ((r ^^^ error_pattern) >>> 11, (popcount error_pattern : Int))
    | none => (r >>> 11, -1)

/-- The value of `syndrome_table`, computed once and for all: 242
entries (34 of the 276 inserted syndromes collide with earlier ones). -/
def syndrome_table_list : List (Nat × Nat) :=
  [(1, 2049), (2, 2050), (4, 2052), (8, 2056), (16, 2064), (32, 2080),
   (64, 2112), (128, 2176), (256, 2304), (512, 2560), (1024, 3072), (0, 2048),
   (49, 6144), (194, 10240), (1796, 18432), (2024, 34816), (1948, 67584), (1663, 133120),
   (1215, 264192), (359, 526336), (721, 1050624), (1454, 2099200), (863, 4196352), (3, 3),
   (5, 5), (9, 9), (17, 4128), (33, 4112), (65, 65), (129, 129),
   (257, 257), (513, 513), (1025, 1025), (48, 48), (195, 8193), (1797, 16385),
   (2025, 32769), (1949, 65537), (1662, 131073), (1214, 262145), (358, 524289), (720, 1048577),
   (1455, 2097153), (862, 4194305), (6, 6), (10, 10), (18, 18), (34, 34),
   (66, 8320), (130, 8256), (258, 258), (514, 514), (1026, 1026), (51, 4098),
   (192, 192), (1798, 16386), (2026, 32770), (1950, 65538), (1661, 131074), (1213, 262146),
   (357, 524290), (723, 1048578), (1452, 2097154), (861, 4194306), (12, 12), (20, 20),
   (36, 36), (68, 68), (132, 132), (260, 260), (516, 516), (1028, 1028),
   (53, 4100), (198, 8196), (1792, 16388), (2028, 32772), (1944, 65540), (1659, 131076),
   (1211, 262148), (355, 524292), (725, 1048580), (1450, 2097156), (859, 4194308), (24, 24),
   (40, 40), (72, 72), (136, 136), (264, 264), (520, 520), (1032, 1032),
   (57, 4104), (202, 8200), (1804, 16392), (2016, 4456448), (1940, 65544), (1655, 131080),
   (1207, 4227072), (367, 524296), (729, 1048584), (1446, 2097160), (855, 294912), (80, 80),
   (144, 144), (272, 272), (528, 528), (1040, 1040), (210, 8208), (1812, 16400),
   (2040, 32784), (1932, 65552), (1647, 131088), (1199, 262160), (375, 524304), (705, 1048592),
   (1470, 2097168), (847, 4194320), (96, 96), (160, 160), (288, 288), (544, 544),
   (1056, 1056), (226, 8224), (1828, 16416), (1992, 32800), (1980, 65568), (1631, 131104),
   (1183, 262176), (327, 524320), (753, 1048608), (1422, 2097184), (895, 4194336), (320, 320),
   (576, 576), (1088, 1088), (113, 4160), (1860, 16448), (1960, 32832), (2012, 65600),
   (1599, 131136), (1279, 262208), (295, 524352), (657, 1048640), (1518, 2097216), (799, 4194368),
   (384, 384), (640, 640), (1152, 1152), (177, 4224), (1924, 16512), (1896, 32896),
   (1820, 65664), (1791, 131200), (1087, 262272), (487, 524416), (593, 1048704), (1326, 2097280),
   (991, 4194432), (768, 768), (1280, 1280), (305, 4352), (450, 8448), (1540, 16640),
   (1768, 33024), (1692, 65792), (1919, 3145728), (1471, 262400), (103, 524544), (977, 2228224),
   (1198, 1179648), (607, 4194560), (1536, 1536), (561, 4608), (706, 8704), (1284, 16896),
   (1512, 33280), (1436, 66048), (1151, 131584), (1727, 262656), (871, 524800), (209, 1049088),
   (1966, 2097664), (351, 4194816), (1073, 5120), (1218, 9216), (772, 17408), (1000, 33792),
   (924, 66560), (639, 132096), (191, 263168), (1383, 525312), (1745, 1049600), (430, 2098176),
   (1887, 4195328), (243, 12288), (1845, 20480), (2009, 36864), (1965, 69632), (1614, 135168),
   (1166, 266240), (342, 528384), (736, 1052672), (1439, 2101248), (878, 4198400), (1990, 24576),
   (1834, 40960), (1886, 73728), (1725, 139264), (1149, 270336), (421, 532480), (531, 1056768),
   (1388, 2105344), (925, 4202496), (236, 49152), (152, 81920), (379, 147456), (955, 278528),
   (1635, 540672), (1493, 1064960), (682, 2113536), (1115, 4210688), (116, 98304), (407, 163840),
   (1679, 557056), (1337, 1081344), (582, 2129920), (483, 196608), (803, 327680), (1787, 589824),
   (1357, 1114112), (562, 2162688), (1219, 4259840), (704, 393216), (1816, 655360), (1312, 4325376),
   (1496, 786432), (1646, 1310720), (273, 2359296), (950, 1572864), (1225, 2621440), (568, 4718592),
   (398, 5242880), (1777, 6291456)]

/-- Key fact established once: the table the constructor builds is the
explicit 242-entry list above. -/
theorem syndrome_table_eq : syndrome_table = syndrome_table_list := by decide

/-- Values stored in the syndrome table are 23-bit patterns of weight 1 or 2
(the weight-1 entry 2048 sits at key 0, which `decode` never looks up). -/
theorem syndrome_table_values :
    ∀ p ∈ syndrome_table, p.2 < 2 ^ 23 ∧ (popcount p.2 = 1 ∨ popcount p.2 = 2) := by
  rw [syndrome_table_eq]; decide

/-- C1: the no-noise round trip `decode(encode(d)) = (d, 0)` already fails at
`d = 1`: the encoder places the information bit at position 22 and the
parity-check matrix does not annihilate codewords, so the decoder returns
`(2048, -1)` instead of `(1, 0)`. -/
theorem C1_roundtrip_fails_at_one :
    encode 1 = Except.ok (encode_loop 1) ∧
    decode ((encode_loop 1 : Nat) : Int) = (2048, -1) ∧
    ((2048 : Nat), (-1 : Int)) ≠ ((1 : Nat), (0 : Int)) := by
  refine ⟨rfl, ?_, by decide⟩
  unfold decode
  simp only [syndrome_table_eq]
  decide

/-- C2: single-bit correction fails at `d = 0`, `i = 11`: bit 11 of the
received word is invisible to `_calculate_syndrome` (no parity-check row used
by it has bit 11 set), so `decode(encode(0) XOR (1 << 11))` reports no error
and returns `(1, 0)` instead of `(0, 1)`. -/
theorem C2_single_bit_fails_at_bit_eleven :
    encode 0 = Except.ok (encode_loop 0) ∧
    decode ((encode_loop 0 ^^^ (1 <<< 11) : Nat) : Int) = (1, 0) ∧
    ((1 : Nat), (0 : Int)) ≠ ((0 : Nat), (1 : Int)) := by
  refine ⟨rfl, ?_, by decide⟩
  unfold decode
  simp only [syndrome_table_eq]
  decide

/-- C3: double-bit correction fails at `d = 1`, `(i, j) = (0, 1)`:
`decode(encode(1) XOR (1 << 0) XOR (1 << 1))` returns `(2116, 2)` instead of
`(1, 2)`. -/
theorem C3_double_bit_fails_at_one :
    encode 1 = Except.ok (encode_loop 1) ∧
    decode ((encode_loop 1 ^^^ (1 <<< 0) ^^^ (1 <<< 1) : Nat) : Int) = (2116, 2) ∧
    ((2116 : Nat), (2 : Int)) ≠ ((1 : Nat), (2 : Int)) := by
  refine ⟨rfl, ?_, by decide⟩
  unfold decode
  simp only [syndrome_table_eq]
  decide

/-- C4: the syndrome does not characterise codewords: `encode(1)` is a valid
codeword, yet its syndrome is 1726, not 0 (the hard-coded parity-check matrix
is not a parity-check matrix for the hard-coded generator matrix). -/
theorem C4_codeword_with_nonzero_syndrome :
    encode 1 = Except.ok (encode_loop 1) ∧
    calculate_syndrome (encode_loop 1) = 1726 ∧ (1726 : Nat) ≠ 0 := by
  exact ⟨rfl, by decide, by decide⟩

/-- C5: the 276 precomputed syndromes are not pairwise distinct: the weight-1
pattern `1 << 0` and the weight-2 pattern `(1 << 0) | (1 << 11)` share
syndrome 1, and the finished table has only 242 entries instead of 276. -/
theorem C5_syndromes_collide :
    calculate_syndrome (1 <<< 0) = calculate_syndrome ((1 <<< 0) ||| (1 <<< 11)) ∧
    ((1 <<< 0 : Nat)) ≠ ((1 <<< 0) ||| (1 <<< 11)) ∧
    syndrome_table.length = 242 := by
  refine ⟨by decide, by decide, ?_⟩
  rw [syndrome_table_eq]
  decide

/-- C7: `encode` fails with the `ValueError` exactly on inputs outside
`[0, 4095]`, and returns a codeword exactly on inputs inside it. -/
theorem C7_encode_range_validation (data : Int) :
    (encode data = Except.error "Data must be 12 bits (0-4095)" ↔
      (data < 0 ∨ 4096 ≤ data)) ∧
    ((∃ codeword, encode data = Except.ok codeword) ↔ (0 ≤ data ∧ data ≤ 4095)) := by
  have h4096 : (2 ^ 12 : Int) = 4096 := by norm_num
  unfold encode
  split
  next h =>
    rw [h4096] at h
    refine ⟨iff_of_true rfl h, iff_of_false ?_ (by omega)⟩
    rintro ⟨c, hc⟩
    exact absurd hc (by simp)
  next h =>
    rw [h4096] at h
    push_neg at h
    exact ⟨iff_of_false (by simp) (by omega), iff_of_true ⟨_, rfl⟩ (by omega)⟩

/-- C8: a received word whose syndrome is nonzero and absent from the table is
returned uncorrected, top 12 bits plus the sentinel error count -1; no
exception path exists (`decode` is a total function). -/
theorem C8_uncorrectable_returns_sentinel (w : Nat) (hw : w < 2 ^ 23)
    (hs : calculate_syndrome w ≠ 0)
    (hl : dictLookup syndrome_table (calculate_syndrome w) = none) :
    decode (w : Int) = (w >>> 11, -1) := by
  have hmod : (((w : Nat) : Int) % (2 ^ 23 : Int)).toNat = w := by
    rw [Int.emod_eq_of_lt (by positivity) (by exact_mod_cast hw)]
    exact Int.toNat_ofNat w
  simp only [decode, hmod]
  rw [if_neg hs, hl]

/-- Witness for C8 at the concrete received word 7: its syndrome is nonzero
and not a table key, and `decode 7` indeed returns `(0, -1)` shaped as
`(7 >> 11, -1)`. -/
theorem C8_uncorrectable_returns_sentinel_witness :
    decode ((7 : Nat) : Int) = ((7 : Nat) >>> 11, -1) :=
  C8_uncorrectable_returns_sentinel 7 (by decide) (by decide)
    (by rw [syndrome_table_eq]; decide)

/-- Oring a power of two into a number below it is addition. -/
theorem or_two_pow_eq_add (x k : Nat) (hx : x < 2 ^ k) : x ||| 2 ^ k = x + 2 ^ k := by
  apply Nat.eq_of_testBit_eq
  intro j
  rcases lt_trichotomy j k with hj | hj | hj
  · rw [Nat.testBit_or, Nat.add_comm, Nat.testBit_two_pow_add_gt hj,
      Nat.testBit_two_pow_of_ne (by omega), Bool.or_false]
  · subst hj
    rw [Nat.testBit_or, Nat.add_comm, Nat.testBit_two_pow_add_eq,
      Nat.testBit_eq_false_of_lt hx, Nat.testBit_two_pow_self, Bool.or_true]
    rfl
  · have hxj : x < 2 ^ j :=
      lt_of_lt_of_le hx (Nat.pow_le_pow_right (by norm_num) (le_of_lt hj))
    have hsum : x + 2 ^ k < 2 ^ j := by
      have h1 : x + 2 ^ k < 2 ^ (k + 1) := by
        rw [Nat.pow_succ]
        omega
      exact lt_of_lt_of_le h1 (Nat.pow_le_pow_right (by norm_num) hj)
    rw [Nat.testBit_or, Nat.testBit_eq_false_of_lt hxj,
      Nat.testBit_eq_false_of_lt hsum, Nat.testBit_two_pow_of_ne (by omega)]
    rfl

/-- One step of the syndrome accumulation `syndrome |= parity << i`: oring a
parity bit shifted to position k into an accumulator that only occupies the
low k bits is addition of `parity * 2 ^ k`. -/
theorem or_shift_eq_add (x y k : Nat) (hx : x < 2 ^ k) :
    x ||| ((y % 2) <<< k) = x + (y % 2) * 2 ^ k := by
  have h2 : y % 2 = 0 ∨ y % 2 = 1 := by omega
  rcases h2 with h | h <;> rw [h]
  · simp
  · rw [Nat.shiftLeft_eq]
    simp only [Nat.one_mul]
    exact or_two_pow_eq_add x k hx

/-- The syndrome loop computes the weighted sum of the 11 row parities: the
syndrome is assembled one bit per parity-check row from rows 0..10, with the
low bit coming from row 0. -/
theorem calculate_syndrome_bits (w : Nat) :
    calculate_syndrome w =
      ∑ i ∈ Finset.range 11,
        (popcount (w &&& parity_check_matrix.getD i 0) % 2) * 2 ^ i := by
  have hrange : List.range 11 = [0, 1, 2, 3, 4, 5, 6, 7, 8, 9, 10] := by decide
  unfold calculate_syndrome
  rw [hrange]
  simp only [List.foldl_cons, List.foldl_nil]
  rw [Finset.sum_range_succ, Finset.sum_range_succ, Finset.sum_range_succ,
    Finset.sum_range_succ, Finset.sum_range_succ, Finset.sum_range_succ,
    Finset.sum_range_succ, Finset.sum_range_succ, Finset.sum_range_succ,
    Finset.sum_range_succ, Finset.sum_range_succ, Finset.sum_range_zero]
  rw [or_shift_eq_add _ _ 0 (by omega)]
  rw [or_shift_eq_add _ _ 1 (by omega)]
  rw [or_shift_eq_add _ _ 2 (by omega)]
  rw [or_shift_eq_add _ _ 3 (by omega)]
  rw [or_shift_eq_add _ _ 4 (by omega)]
  rw [or_shift_eq_add _ _ 5 (by omega)]
  rw [or_shift_eq_add _ _ 6 (by omega)]
  rw [or_shift_eq_add _ _ 7 (by omega)]
  rw [or_shift_eq_add _ _ 8 (by omega)]
  rw [or_shift_eq_add _ _ 9 (by omega)]
  rw [or_shift_eq_add _ _ 10 (by omega)]

/-- C9 (amended): the hard-coded parity-check matrix has 12 fixed 23-bit rows,
not 11; the syndrome uses only rows 0..10, one syndrome bit per row, with the
low syndrome bit coming from row 0. -/
theorem C9_parity_check_matrix_shape :
    parity_check_matrix.length = 12 ∧
    (∀ row ∈ parity_check_matrix, row < 2 ^ 23) ∧
    (∀ w : Nat, calculate_syndrome w =
      ∑ i ∈ Finset.range 11,
        (popcount (w &&& parity_check_matrix.getD i 0) % 2) * 2 ^ i) :=
  ⟨by decide, by decide, calculate_syndrome_bits⟩

/-- C9 as stated is false: the matrix does not consist of exactly 11 rows. -/
theorem C9_not_eleven_rows : parity_check_matrix.length ≠ 11 := by decide

/-- C10: decode is a total function, its data component is always at most
4095, and its error count is always one of -1, 0, 1, 2 (in particular a count
of 3 or more is never reported). -/
theorem C10_decode_total_and_bounded (received : Int) :
    (decode received).1 ≤ 4095 ∧
    ((decode received).2 = -1 ∨ (decode received).2 = 0 ∨
     (decode received).2 = 1 ∨ (decode received).2 = 2) := by
  have hnn : 0 ≤ received % 2 ^ 23 := Int.emod_nonneg _ (by norm_num)
  have hlt : received % 2 ^ 23 < 2 ^ 23 := Int.emod_lt_of_pos _ (by norm_num)
  have hr : (received % (2 ^ 23 : Int)).toNat < 2 ^ 23 := by omega
  have hshift : ∀ x : Nat, x < 2 ^ 23 → x >>> 11 ≤ 4095 := by
    intro x hx
    rw [Nat.shiftRight_eq_div_pow]
    omega
  simp only [decode]
  split
  next hsz => exact ⟨hshift _ hr, Or.inr (Or.inl rfl)⟩
  next hsnz =>
    split
    next e heq =>
      have hmem : ∃ p ∈ syndrome_table, p.2 = e := by
        unfold dictLookup at heq
        obtain ⟨p, hp, hpe⟩ := Option.map_eq_some'.mp heq
        exact ⟨p, List.mem_of_find?_eq_some hp, hpe⟩
      obtain ⟨p, hpmem, hpe⟩ := hmem
      obtain ⟨he23, hwt⟩ := syndrome_table_values p hpmem
      rw [hpe] at he23 hwt
      refine ⟨hshift _ (Nat.xor_lt_two_pow hr he23), ?_⟩
      rcases hwt with h1 | h2
      · exact Or.inr (Or.inr (Or.inl (by rw [h1]; rfl)))
      · exact Or.inr (Or.inr (Or.inr (by rw [h2]; rfl)))
    next heq => exact ⟨hshift _ hr, Or.inl rfl⟩

set_option maxHeartbeats 4000000 in
/-- Exhaustive check of the codeword layout over all 4096 information words,
written as a 64 by 64 grid to keep the reduction shallow: bit i of the data
appears at bit 22 - i of the encoder output. -/
theorem encode_loop_bits_exhaustive :
    ((List.range 64).all (fun a => (List.range 64).all (fun b =>
      (List.range 12).all (fun i =>
        (encode_loop (64 * a + b)).testBit (22 - i) == (64 * a + b).testBit i)))) = true := by
  decide

/-- C6 (amended): the 11 parity bits occupy the low-order positions of the
codeword and the 12 information bits occupy the high-order positions in
reversed order: for every d < 4096 and i < 12, bit i of d appears at bit
22 - i of encode(d). -/
theorem C6_info_bits_high_and_reversed (d i : Nat) (hd : d < 4096) (hi : i < 12) :
    encode ((d : Nat) : Int) = Except.ok (encode_loop d) ∧
    (encode_loop d).testBit (22 - i) = d.testBit i := by
  constructor
  · unfold encode
    rw [if_neg]
    · rw [Int.toNat_ofNat]
    · push_neg
      refine ⟨by positivity, ?_⟩
      have hd2 : (d : Int) < 4096 := by exact_mod_cast hd
      omega
  · have h := encode_loop_bits_exhaustive
    simp only [List.all_eq_true, List.mem_range, beq_iff_eq] at h
    have h2 := h (d / 64) (by omega) (d % 64) (by omega) i hi
    rwa [show 64 * (d / 64) + d % 64 = d by omega] at h2

/-- Witness for C6 at d = 5, i = 0: bit 0 of the data appears at bit 22 of
the codeword. -/
theorem C6_info_bits_high_and_reversed_witness :
    encode ((5 : Nat) : Int) = Except.ok (encode_loop 5) ∧
    (encode_loop 5).testBit (22 - 0) = (5 : Nat).testBit 0 :=
  C6_info_bits_high_and_reversed 5 0 (by decide) (by decide)

/-- C6 as stated is false: the low 12 bits of encode(1) are 1505 (parity
bits), not the information word 1. -/
theorem C6_low_bits_are_not_the_data :
    encode ((1 : Nat) : Int) = Except.ok (encode_loop 1) ∧
    encode_loop 1 &&& ((1 <<< 12) - 1) = 1505 ∧ (1505 : Nat) ≠ 1 :=
  ⟨rfl, by decide, by decide⟩
